import Mathlib

/-!
Shallow embedding of the autopilot execution engine
(`slides/autopilot/autotest.py`): the persisted execution state, the
terminal-session wait/verification protocol, and the main control loop
with its per-method dispatch.  External capabilities (tmux capture/send,
the Python `re` engine on operator-supplied patterns, the display and
browser backends, wall-clock time) are modelled as parameters or as
events recorded in a trace; everything the script itself computes is
translated directly.
-/

namespace Autotest

/-- Python whitespace characters, as recognised by `str.strip()`. -/
def isPyWs (c : Char) : Bool :=
  c == ' ' || c == '\t' || c == '\n' || c == '\r' || c == '\x0b' || c == '\x0c'

/-- Python `data.strip()`: remove leading and trailing whitespace. -/
def pyStrip (s : String) : String :=
  String.mk (((s.data.dropWhile isPyWs).reverse.dropWhile isPyWs).reverse)

/-- Python `output.rstrip('\n')`: remove trailing newline characters. -/
def rstripNl (s : String) : String :=
  String.mk ((s.data.reverse.dropWhile (fun c => c == '\n')).reverse)

/-- Python `data.replace('`', '')` from the main loop: every backtick
character is removed from the payload before dispatch. -/
def removeBackticks (s : String) : String :=
  String.mk (s.data.filter (fun c => c ≠ '`'))

/-- Python `match.replace('\n', '')` from the `copypaste` branch: embedded
line breaks are removed from the matched text. -/
def removeNewlines (s : String) : String :=
  String.mk (s.data.filter (fun c => c ≠ '\n'))

/-- Literal-matching helper: when `pat` is a leading prefix of `s`, return
the remainder of `s`, otherwise `none`. -/
def dropLit : List Char → List Char → Option (List Char)
  | [], s => some s
  | _ :: _, [] => none
  | c :: cs, d :: ds => if c == d then dropLit cs ds else none

/-- Python `re.sub("\n +", "\n", data)` from the `bash` branch: after each
newline, the maximal run of following space characters is dropped.  The
fuel argument only bounds the recursion; every call site passes the
length of the list, which is always sufficient because each step
consumes at least one character. -/
def stripIndentAux : Nat → List Char → List Char
  | 0, _ => []
  | _, [] => []
  | fuel + 1, c :: rest =>
    if c == '\n' then c :: stripIndentAux fuel (rest.dropWhile (fun d => d == ' '))
    else c :: stripIndentAux fuel rest

/-- String wrapper for `stripIndentAux`. -/
def stripIndent (s : String) : String :=
  String.mk (stripIndentAux s.data.length s.data)

/-- Python `s.replace(pat, repl)` for a nonempty `pat` (the script replaces
`"/node1"`): all non-overlapping occurrences, scanning left to right.
Fuelled like `stripIndentAux`. -/
def replaceAux (pat repl : List Char) : Nat → List Char → List Char
  | 0, s => s
  | _, [] => []
  | fuel + 1, c :: rest =>
    match dropLit pat (c :: rest) with
    | some rest' => repl ++ replaceAux pat repl fuel rest'
    | none => c :: replaceAux pat repl fuel rest

/-- String wrapper for `replaceAux`. -/
def pyReplace (s pat repl : String) : String :=
  String.mk (replaceAux pat.data repl.data s.data.length s.data)

/-- Suffix test on the underlying character lists (Python
`str.endswith`). -/
def endsWithStr (s post : String) : Bool :=
  post.data.isSuffixOf s.data

/-- Python `text.split("\n")`: the segments between newline characters,
keeping empty segments. -/
def splitNl : List Char → List (List Char)
  | [] => [[]]
  | c :: rest =>
    match splitNl rest with
    | [] => [[c]]
    | h :: t => if c == '\n' then [] :: h :: t else (c :: h) :: t

/-- Default timeout of the wait primitives (`TIMEOUT = 60` seconds). -/
def TIMEOUT : Nat := 60

/-- Execution state of the engine (`class State`): the three mode flags and
the cursor `next_step` into the action list.  `next_step` is an `Int`
because the script stores a Python integer and never range-checks it. -/
structure State where
  interactive : Bool
  verify_status : Bool
  simulate_type : Bool
  next_step : Int
deriving DecidableEq, Repr

/-- Initial field values set by `State.__init__`. -/
def defaultState : State :=
  { interactive := true, verify_status := false
    simulate_type := true, next_step := 0 }

/-- Parsed durable record (`state.yaml`) as seen by `State.load`.  The whole
record is `none` when the file is missing, unreadable or fails YAML
parsing; an individual field is `none` when its key is missing or (for
`next_step`) when `int()` rejects the stored value.  `bool()` coercion
never fails, so a present boolean field always yields a value. -/
structure LoadRec where
  interactive : Option Bool
  verify_status : Option Bool
  simulate_type : Option Bool
  next_step : Option Int
deriving DecidableEq, Repr

/-- Embedding of `State.load`: the four fields are read and assigned in
source order, each `data[...]` access may raise; the `Bool` result tells
whether the whole load succeeded.  On an exception the fields assigned so
far keep their new values, exactly as in the Python method. -/
def State.load (st : State) (rec : Option LoadRec) : State × Bool :=
  match rec with
  | none => (st, false)
  | some r =>
    match r.interactive with
    | none => (st, false)
    | some i =>
      let st := { st with interactive := i }
      match r.verify_status with
      | none => (st, false)
      | some v =>
        let st := { st with verify_status := v }
        match r.simulate_type with
        | none => (st, false)
        | some s =>
          let st := { st with simulate_type := s }
          match r.next_step with
          | none => (st, false)
          | some n => ({ st with next_step := n }, true)

/-- Embedding of `State.save`: the YAML document written to durable
storage, with all four fields present.  YAML round-trips Python bools and
ints faithfully, so serialisation itself is modelled as the identity on
field values. -/
def State.save (st : State) : LoadRec :=
  { interactive := some st.interactive
    verify_status := some st.verify_status
    simulate_type := some st.simulate_type
    next_step := some st.next_step }

/-- Startup sequence around `state.load()` (the `try`/`except` block):
on success `interactive` is forced back to `true`; on failure the
exception is logged and the partially updated in-memory state is kept. -/
def startup (rec : Option LoadRec) : State :=
  let r := State.load defaultState rec
  if r.2 then { r.1 with interactive := true } else r.1

/-- Scripted action, one entry of the `actions` list built at startup:
the slide number it belongs to, its method tag and its raw payload.
(The `snippet` component of the source tuple is display-only and carries
the same text as the payload.) -/
structure Action where
  slide : Nat
  method : String
  payload : String
deriving DecidableEq, Repr

/-- Observable effect of one engine step on the external collaborators:
tmux sends and waits, the 0.5 s settle sleep, screen captures, display
and browser control, and logged warnings.  `checkExit` records the call
to `check_exit_status` (whose internals are modelled separately). -/
inductive Event where
  | syncSlide (n : Nat)
  | gotoSlide (n : Nat)
  | focusTerminal
  | focusBrowser
  | waitPrompt
  | waitString (s : String) (timeout : Nat)
  | send (s : String)
  | settle
  | capture
  | checkExit
  | openURL (u : String)
  | warnUnknownMethod (m : String)
  | warnUnknownCommand
deriving DecidableEq, Repr

/-- Exceptions the script can raise during an iteration, by their Python
class or message. -/
inductive PyError where
  | indexError
  | nameError
  | regexNotFound (pat : String)
  | statusMissing
  | statusAmbiguous
  | statusNonzero (code : Nat)
deriving DecidableEq, Repr

/-- Python list indexing `l[i]`: nonnegative indices below the length are
direct, negative indices at least `-len` count from the end, anything
else raises IndexError (`none`). -/
def pyGet {α : Type} (l : List α) (i : Int) : Option α :=
  if 0 ≤ i ∧ i < (l.length : Int) then l.get? i.toNat
  else if -(l.length : Int) ≤ i ∧ i < 0 then l.get? ((l.length : Int) + i).toNat
  else none

/-- Maximal leading run of characters satisfying `p`, with the rest. -/
def takeRun (p : Char → Bool) : List Char → List Char × List Char
  | [] => ([], [])
  | c :: cs =>
    if p c then
      let r := takeRun p cs
      (c :: r.1, r.2)
    else ([], c :: cs)

/-- Numeric value of a digit string, as Python `int()` on a digit match. -/
def digitsToNat (ds : List Char) : Nat :=
  ds.foldl (fun acc c => 10 * acc + (c.toNat - 48)) 0

/-- Attempted match of the exit-status pattern `\n<token> ([0-9]+)\n` at
the head of `s`: on success, the captured code and the suffix of `s`
after the whole match (the `re` engine resumes scanning there, so
matches never overlap). -/
def statusAt (tok : List Char) (s : List Char) : Option (Nat × List Char) :=
  match dropLit ('\n' :: (tok ++ [' '])) s with
  | none => none
  | some rest =>
    let r := takeRun (fun c => c.isDigit) rest
    if r.1.isEmpty then none
    else
      match r.2 with
      | '\n' :: rest' => some (digitsToNat r.1, rest')
      | _ => none

/-- Fuelled left-to-right non-overlapping scan for the exit-status
pattern, as `re.findall` performs it. -/
def findStatusAux (tok : List Char) : Nat → List Char → List Nat
  | 0, _ => []
  | _, [] => []
  | fuel + 1, c :: rest =>
    match statusAt tok (c :: rest) with
    | some r => r.1 :: findStatusAux tok fuel r.2
    | none => findStatusAux tok fuel rest

/-- Embedding of `re.findall("\n{token} ([0-9]+)\n", screen)` from
`check_exit_status`: the list of captured exit codes, in order.
(The token is a uuid hex string, so it contains no regex
metacharacters and matches literally.) -/
def findStatus (token screen : String) : List Nat :=
  findStatusAux token.data (screen.data.length + 1) screen.data

/-- Trace of terminal events emitted by `check_exit_status` when
verification is on: send the `echo <token> $?` probe with its newline,
sleep 0.5 s, wait for a prompt, capture the screen. -/
def checkExitEvents (token : String) : List Event :=
  [Event.send ("echo " ++ token ++ " $?\n"), Event.settle,
   Event.waitPrompt, Event.capture]

/-- Embedding of `check_exit_status`: a no-op when `verify` is off;
otherwise the probe protocol runs and the scan of the captured screen
decides the outcome — no match, ambiguous matches, a nonzero code, or
silent success on a unique zero.  `token` stands for the fresh
`uuid.uuid4().hex` value and `screen` for the capture result. -/
def check_exit_status (verify : Bool) (token : String) (screen : String) :
    List Event × Option PyError :=
  if verify then
    let status := findStatus token screen
    if status.length == 0 then (checkExitEvents token, some PyError.statusMissing)
    else if status.length > 1 then (checkExitEvents token, some PyError.statusAmbiguous)
    else
      let code := status.headD 0
      if code ≠ 0 then (checkExitEvents token, some (PyError.statusNonzero code))
      else (checkExitEvents token, none)
  else ([], none)

/-- Prompt test applied by `wait_for_prompt` to one captured screen: after
stripping trailing newlines the text must end with the literal `"\n$"`
or the literal `"\n/ #"`. -/
def promptSentinel (output : String) : Bool :=
  let out := rstripNl output
  endsWithStr out "\n$" || endsWithStr out "\n/ #"

/-- Modelled from the spec: the sentinel as §4.2 words it — the trimmed
capture ends with "a line ending in `$`", or with "a line ending in `#`
preceded by whitespace".  Stated for comparison with `promptSentinel`,
the test the source actually performs. -/
def specSentinel (output : String) : Bool :=
  let ll := (splitNl (rstripNl output).data).getLastD []
  endsWithStr (String.mk ll) "$" ||
    (match ll.reverse with
     | '#' :: c :: _ => isPyWs c
     | _ => false)

/-- Embedding of the `wait_for_prompt` polling loop: `polls` is the
sequence of capture results seen at the one-second poll instants before
the 60-second deadline (hence at most `TIMEOUT` entries in a real run).
The loop returns `true` as soon as a capture passes `promptSentinel`;
exhausting the polls is the Timeout exception (`false`). -/
def wait_for_prompt (polls : List String) : Bool :=
  match polls with
  | [] => false
  | s :: rest => if promptSentinel s then true else wait_for_prompt rest

/-- Capture of `^\[(.*)\]` with MULTILINE on one line: the line must start
with `[` and contain a later `]`; the greedy `.*` makes the capture run
to the last `]` of the line. -/
def bracketCapture (line : List Char) : Option String :=
  match line with
  | '[' :: rest =>
    match (rest.reverse).dropWhile (fun c => c ≠ ']') with
    | ']' :: revCap => some (String.mk revCap.reverse)
    | _ => none
  | _ => none

/-- Embedding of `re.findall("^\[(.*)\]", screen, re.MULTILINE)` from the
`open` branch: one capture per line that carries a bracketed address at
its start (at most one match per line, since `^` anchors each match). -/
def findallBracket (screen : String) : List String :=
  (splitNl screen.data).filterMap bracketCapture

/-- Word characters of the regex class `\w` (ASCII). -/
def isWordChar (c : Char) : Bool :=
  c.isAlphanum || c == '_'

/-- Attempted match of `id: (\w+)` at the head of `s`: captured word and
the suffix after the match. -/
def idMatchAt (s : List Char) : Option (List Char × List Char) :=
  match dropLit "id: ".data s with
  | none => none
  | some rest =>
    let r := takeRun isWordChar rest
    if r.1.isEmpty then none else some (r.1, r.2)

/-- Fuelled non-overlapping scan for `id: (\w+)`. -/
def idCapturesAux : Nat → List Char → List String
  | 0, _ => []
  | _, [] => []
  | fuel + 1, c :: rest =>
    match idMatchAt (c :: rest) with
    | some r => String.mk r.1 :: idCapturesAux fuel r.2
    | none => idCapturesAux fuel rest

/-- Concrete instance of the `re.findall` oracle implementing the payload
pattern `id: (\w+)` of the spec's copypaste scenario; the pattern
argument is fixed by this instantiation. -/
def reFindallId (_pat : String) (text : String) : List String :=
  idCapturesAux (text.data.length + 1) text.data

/-- Oracle instance used where no regex match is relevant. -/
def noFindall (_pat : String) (_text : String) : List String := []

/-- Method dispatch of the `y` branch of the main loop (the `if`/`elif`
chain on `method`), producing the event trace and the exception, if any,
of the current action.  `st` is the engine state at dispatch time (the
`bash` branch reads `actions[state.next_step + 1]` for its completion
lookahead), `screen` the result any `capture_pane()` call would return,
and `fa` the Python `re.findall(pattern, text, re.DOTALL)` oracle used by
`copypaste` on its operator-supplied pattern.  Wait events record the
blocking calls; their own timeout behaviour is modelled by
`wait_for_prompt` separately. -/
def dispatch (actions : List Action) (st : State) (screen : String)
    (fa : String → String → List String) (method : String) (data : String) :
    List Event × Option PyError :=
  if method == "keys" then
    ([Event.send data], none)
  else if method == "bash" then
    let cmdText := stripIndent data ++ "\n"
    let pre := [Event.waitPrompt, Event.send cmdText, Event.settle]
    match pyGet actions (st.next_step + 1) with
    | none => (pre, some PyError.indexError)
    | some nxt =>
      if nxt.method == "wait" then
        (pre ++ [Event.waitString nxt.payload TIMEOUT], none)
      else if nxt.method == "longwait" then
        (pre ++ [Event.waitString nxt.payload (10 * TIMEOUT)], none)
      else
        (pre ++ [Event.waitPrompt, Event.checkExit], none)
  else if method == "copypaste" then
    let ms := fa data screen
    match ms.getLast? with
    | none => ([Event.capture], some (PyError.regexNotFound data))
    | some m =>
      let pasted := removeNewlines m
      ([Event.capture, Event.send (pasted ++ "\n"), Event.waitPrompt,
        Event.checkExit], none)
  else if method == "open" then
    match (findallBracket screen).getLast? with
    | none => ([Event.capture], some PyError.indexError)
    | some ipaddr =>
      let url := pyReplace data "/node1" ("/" ++ ipaddr)
      -- The source then evaluates `status.interactive`, but no name
      -- `status` is in scope at module level: NameError, unconditionally.
      ([Event.capture, Event.openURL url, Event.focusBrowser],
       some PyError.nameError)
  else
    ([Event.warnUnknownMethod method], none)

/-- Operator commands of the main loop, by the branch of the `if`/`elif`
chain on `command` that handles them (`n`, `p`, `s`, `v`, `g`, `q`, `c`,
`y`, and the fall-through warning). -/
inductive Command where
  | next
  | prev
  | toggleSim
  | toggleVerify
  | goto (n : Int)
  | quit
  | cont
  | execute
  | unknown
deriving DecidableEq, Repr

/-- Result of one iteration of the main `while` loop: the state written by
`state.save()` at the iteration head, the state at the end of the
iteration, the event trace, the index dispatched by an execute command
(if any), whether `break` ended the loop, and the exception, if any. -/
structure IterOut where
  saved : State
  newState : State
  events : List Event
  dispatched : Option Int
  quit : Bool
  err : Option PyError
deriving DecidableEq, Repr

/-- Embedding of one iteration of the main loop body (the loop guard
`state.next_step < len(actions)` is checked by the caller): persist the
state, resolve `actions[state.next_step]`, strip the payload, synchronize
the remote slide, read the operator command (synthesized as execute when
non-interactive), strip backticks, and apply the command. -/
def iteration (actions : List Action) (screen : String)
    (fa : String → String → List String) (st : State) (cmd : Command) :
    IterOut :=
  match pyGet actions st.next_step with
  | none =>
    { saved := st, newState := st, events := [], dispatched := none,
      quit := false, err := some PyError.indexError }
  | some a =>
    let data := pyStrip a.payload
    let base := [Event.syncSlide a.slide]
    let c := if st.interactive then cmd else Command.execute
    let data := removeBackticks data
    match c with
    | Command.next =>
      { saved := st, newState := { st with next_step := st.next_step + 1 },
        events := base, dispatched := none, quit := false, err := none }
    | Command.prev =>
      { saved := st, newState := { st with next_step := st.next_step - 1 },
        events := base, dispatched := none, quit := false, err := none }
    | Command.toggleSim =>
      { saved := st, newState := { st with simulate_type := !st.simulate_type },
        events := base, dispatched := none, quit := false, err := none }
    | Command.toggleVerify =>
      { saved := st, newState := { st with verify_status := !st.verify_status },
        events := base, dispatched := none, quit := false, err := none }
    | Command.goto n =>
      { saved := st, newState := { st with next_step := n },
        events := base ++ (if n == 0 then [Event.gotoSlide 1] else []),
        dispatched := none, quit := false, err := none }
    | Command.quit =>
      { saved := st, newState := st, events := base, dispatched := none,
        quit := true, err := none }
    | Command.cont =>
      { saved := st, newState := { st with interactive := false },
        events := base, dispatched := none, quit := false, err := none }
    | Command.execute =>
      let d := dispatch actions st screen fa a.method data
      match d.2 with
      | some e =>
        { saved := st, newState := st,
          events := base ++ Event.focusTerminal :: d.1,
          dispatched := some st.next_step, quit := false, err := some e }
      | none =>
        { saved := st, newState := { st with next_step := st.next_step + 1 },
          events := base ++ Event.focusTerminal :: d.1,
          dispatched := some st.next_step, quit := false, err := none }
    | Command.unknown =>
      { saved := st, newState := st, events := base ++ [Event.warnUnknownCommand],
        dispatched := none, quit := false, err := none }

/-- Embedding of the main `while state.next_step < len(actions)` loop:
`cmds` feeds one operator command per interactive iteration; `fuel`
bounds the number of iterations (the real loop can spin forever on
commands that leave the state unchanged).  Returns the final state, the
concatenated event trace, and the exception that escaped, if any. -/
def runLoop : Nat → List Action → String → (String → String → List String) →
    List Command → State → State × List Event × Option PyError
  | 0, _, _, _, _, st => (st, [], none)
  | fuel + 1, actions, screen, fa, cmds, st =>
    if st.next_step < (actions.length : Int) then
      let cmd := if st.interactive then cmds.headD Command.unknown else Command.execute
      let cmds' := if st.interactive then cmds.tail else cmds
      let out := iteration actions screen fa st cmd
      if out.quit then (out.newState, out.events, none)
      else
        match out.err with
        | some e => (out.newState, out.events, some e)
        | none =>
          let r := runLoop fuel actions screen fa cmds' out.newState
          (r.1, out.events ++ r.2.1, r.2.2)
    else (st, [], none)

/-- States reachable from `s₁` by iterations of the main loop whose
commands satisfy `P`, each under the loop guard and completing without an
exception; each step may observe a different screen and regex oracle. -/
inductive ReachableVia (actions : List Action) (P : Command → Prop) :
    State → State → Prop
  | refl (st : State) : ReachableVia actions P st st
  | step (st₁ st₂ st₃ : State) (screen : String)
      (fa : String → String → List String) (cmd : Command) :
      ReachableVia actions P st₁ st₂ →
      P cmd →
      st₂.next_step < (actions.length : Int) →
      (iteration actions screen fa st₂ cmd).err = none →
      st₃ = (iteration actions screen fa st₂ cmd).newState →
      ReachableVia actions P st₁ st₃

/-- Trace predicate: every `send` event is preceded by an earlier
`waitPrompt` event. -/
def noSendBeforePromptAux : Bool → List Event → Bool
  | _, [] => true
  | _, Event.waitPrompt :: rest => noSendBeforePromptAux true rest
  | seen, Event.send _ :: rest => seen && noSendBeforePromptAux seen rest
  | seen, _ :: rest => noSendBeforePromptAux seen rest

/-- Entry point of the send-after-prompt trace predicate. -/
def noSendBeforePrompt (evs : List Event) : Bool :=
  noSendBeforePromptAux false evs

/-- Trace predicate: the trace contains no `send` event at all. -/
def hasNoSend (evs : List Event) : Bool :=
  evs.all (fun e => match e with | Event.send _ => false | _ => true)

/-- C10: for every execution state whose cursor lies in
`[0, len(actions)]` and arbitrary mode flags, saving the state to
durable storage and then loading it yields a structure identical to the
one saved. -/
theorem save_load_roundtrip (actions : List Action) (st base : State)
    (h0 : 0 ≤ st.next_step) (h1 : st.next_step ≤ (actions.length : Int)) :
    State.load base (some (State.save st)) = (st, true) := by
  cases st
  rfl

/-- Witness: the round trip at a concrete in-range state. -/
theorem save_load_roundtrip_witness :
    0 ≤ (State.mk false true false 1).next_step ∧
    (State.mk false true false 1).next_step ≤
      (([Action.mk 1 "keys" "x"] : List Action).length : Int) ∧
    State.load defaultState (some (State.save (State.mk false true false 1))) =
      (State.mk false true false 1, true) :=
  ⟨by decide, by decide,
   save_load_roundtrip [Action.mk 1 "keys" "x"] (State.mk false true false 1)
     defaultState (by decide) (by decide)⟩

/-- C2: exit-status verification is a no-op when `verifyExitStatus` is
off; otherwise it sends `echo <token> $?` with a newline, waits for a
prompt, captures the screen, and scans for `\n<token> <digits>\n`:
no match and multiple matches raise two distinct errors, a unique
nonzero match raises an error naming the code, and a unique zero match
returns silently. -/
theorem check_exit_status_spec :
    (∀ token screen, check_exit_status false token screen = ([], none)) ∧
    (∀ token screen, findStatus token screen = [] →
      check_exit_status true token screen =
        (checkExitEvents token, some PyError.statusMissing)) ∧
    (∀ token screen c₁ c₂ l, findStatus token screen = c₁ :: c₂ :: l →
      check_exit_status true token screen =
        (checkExitEvents token, some PyError.statusAmbiguous)) ∧
    (∀ token screen c, findStatus token screen = [c] → c ≠ 0 →
      check_exit_status true token screen =
        (checkExitEvents token, some (PyError.statusNonzero c))) ∧
    (∀ token screen, findStatus token screen = [0] →
      check_exit_status true token screen = (checkExitEvents token, none)) := by
  refine ⟨fun token screen => rfl, ?_, ?_, ?_, ?_⟩
  · intro token screen h
    simp [check_exit_status, h]
  · intro token screen c₁ c₂ l h
    simp [check_exit_status, h]
  · intro token screen c h hc
    simp [check_exit_status, h, hc]
  · intro token screen h
    simp [check_exit_status, h]

/-- Witness: the four verification outcomes at concrete screens for the
token `tok`. -/
theorem check_exit_status_spec_witness :
    check_exit_status true "tok" "x\ntok 0\n$" = (checkExitEvents "tok", none) ∧
    check_exit_status true "tok" "x\ntok 7\n$" =
      (checkExitEvents "tok", some (PyError.statusNonzero 7)) ∧
    check_exit_status true "tok" "$" =
      (checkExitEvents "tok", some PyError.statusMissing) ∧
    check_exit_status true "tok" "\ntok 0\nx\ntok 1\n" =
      (checkExitEvents "tok", some PyError.statusAmbiguous) :=
  ⟨check_exit_status_spec.2.2.2.2 "tok" "x\ntok 0\n$" (by decide),
   check_exit_status_spec.2.2.2.1 "tok" "x\ntok 7\n$" 7 (by decide) (by decide),
   check_exit_status_spec.2.1 "tok" "$" (by decide),
   check_exit_status_spec.2.2.1 "tok" "\ntok 0\nx\ntok 1\n" 0 1 [] (by decide)⟩

/-- C8: at the top of every loop iteration, before the action at the
cursor is dispatched, the full execution state is persisted; the
persisted cursor at the moment an action executes is that action's own
index, so a crash mid-action resumes by replaying the same action. -/
theorem persist_before_dispatch (actions : List Action) (screen : String)
    (fa : String → String → List String) (st : State) (cmd : Command)
    (hg : st.next_step < (actions.length : Int)) :
    (iteration actions screen fa st cmd).saved = st ∧
    ∀ i, (iteration actions screen fa st cmd).dispatched = some i →
      i = st.next_step := by
  cases hA : pyGet actions st.next_step with
  | none => simp [iteration, hA]
  | some a =>
    cases hI : st.interactive <;> cases cmd <;>
      simp only [iteration, hA, hI, Bool.false_eq_true, if_false, if_true] <;>
      (try (cases hD :
          (dispatch actions st screen fa a.method
            (removeBackticks (pyStrip a.payload))).2)) <;>
      simp_all

/-- Witness: one guarded iteration persists the incoming state and
dispatches its own cursor index. -/
theorem persist_before_dispatch_witness :
    ((0 : Int) < (([Action.mk 1 "keys" "x"] : List Action).length : Int)) ∧
    (iteration [Action.mk 1 "keys" "x"] "" noFindall
        (State.mk false false true 0) Command.execute).saved =
      State.mk false false true 0 :=
  ⟨by decide,
   (persist_before_dispatch [Action.mk 1 "keys" "x"] "" noFindall
     (State.mk false false true 0) Command.execute (by decide)).1⟩

/-- C1: for a `bash` action, dispatch waits for a prompt, strips leading
indentation from continuation lines, appends a trailing newline, sends
the payload, sleeps 0.5 s, and resolves completion by the next action's
method — `wait` awaits its payload at the default 60 s timeout,
`longwait` at tenfold, and anything else awaits a prompt and then
verifies exit status; the two-action list
`[(1, bash, "echo hi"), (1, wait, "hi")]` run non-interactively with
verification off waits for the string `"hi"` rather than a prompt and
ends with cursor 2; and a `bash` action that is last in the list makes
the lookahead index past the end and fault. -/
theorem bash_dispatch_spec :
    (∀ (actions : List Action) (st : State) (screen : String)
        (fa : String → String → List String) (data : String) (nxt : Action),
      pyGet actions (st.next_step + 1) = some nxt → nxt.method = "wait" →
      dispatch actions st screen fa "bash" data =
        ([Event.waitPrompt, Event.send (stripIndent data ++ "\n"), Event.settle,
          Event.waitString nxt.payload TIMEOUT], none)) ∧
    (∀ (actions : List Action) (st : State) (screen : String)
        (fa : String → String → List String) (data : String) (nxt : Action),
      pyGet actions (st.next_step + 1) = some nxt → nxt.method = "longwait" →
      dispatch actions st screen fa "bash" data =
        ([Event.waitPrompt, Event.send (stripIndent data ++ "\n"), Event.settle,
          Event.waitString nxt.payload (10 * TIMEOUT)], none)) ∧
    (∀ (actions : List Action) (st : State) (screen : String)
        (fa : String → String → List String) (data : String) (nxt : Action),
      pyGet actions (st.next_step + 1) = some nxt →
      nxt.method ≠ "wait" → nxt.method ≠ "longwait" →
      dispatch actions st screen fa "bash" data =
        ([Event.waitPrompt, Event.send (stripIndent data ++ "\n"), Event.settle,
          Event.waitPrompt, Event.checkExit], none)) ∧
    (∀ (actions : List Action) (st : State) (screen : String)
        (fa : String → String → List String) (data : String),
      pyGet actions (st.next_step + 1) = none →
      dispatch actions st screen fa "bash" data =
        ([Event.waitPrompt, Event.send (stripIndent data ++ "\n"), Event.settle],
         some PyError.indexError)) ∧
    (runLoop 3 [Action.mk 1 "bash" "echo hi", Action.mk 1 "wait" "hi"] ""
        noFindall [] (State.mk false false true 0) =
      (State.mk false false true 2,
       [Event.syncSlide 1, Event.focusTerminal, Event.waitPrompt,
        Event.send "echo hi\n", Event.settle, Event.waitString "hi" 60,
        Event.syncSlide 1, Event.focusTerminal, Event.warnUnknownMethod "wait"],
       none)) := by
  refine ⟨?_, ?_, ?_, ?_, by decide⟩
  · intro actions st screen fa data nxt h1 h2
    simp [dispatch, h1, h2]
  · intro actions st screen fa data nxt h1 h2
    simp [dispatch, h1, h2]
  · intro actions st screen fa data nxt h1 h2 h3
    simp [dispatch, h1, h2, h3]
  · intro actions st screen fa data h1
    simp [dispatch, h1]

/-- Witness: bash actions followed by a `wait`, a `longwait`, another
`bash`, and nothing at all, with an indented continuation line in the
first payload. -/
theorem bash_dispatch_spec_witness :
    stripIndent "echo a\n  b" ++ "\n" = "echo a\nb\n" ∧
    dispatch [Action.mk 1 "bash" "echo a\n  b", Action.mk 1 "wait" "done"]
        (State.mk true false true 0) "" noFindall "bash" "echo a\n  b" =
      ([Event.waitPrompt, Event.send (stripIndent "echo a\n  b" ++ "\n"),
        Event.settle, Event.waitString "done" TIMEOUT], none) ∧
    dispatch [Action.mk 1 "bash" "sleep 90", Action.mk 1 "longwait" "done"]
        (State.mk true false true 0) "" noFindall "bash" "sleep 90" =
      ([Event.waitPrompt, Event.send (stripIndent "sleep 90" ++ "\n"),
        Event.settle, Event.waitString "done" (10 * TIMEOUT)], none) ∧
    dispatch [Action.mk 1 "bash" "ls", Action.mk 1 "bash" "pwd"]
        (State.mk true false true 0) "" noFindall "bash" "ls" =
      ([Event.waitPrompt, Event.send (stripIndent "ls" ++ "\n"),
        Event.settle, Event.waitPrompt, Event.checkExit], none) ∧
    dispatch [Action.mk 1 "bash" "ls"]
        (State.mk true false true 0) "" noFindall "bash" "ls" =
      ([Event.waitPrompt, Event.send (stripIndent "ls" ++ "\n"),
        Event.settle], some PyError.indexError) :=
  ⟨by decide,
   bash_dispatch_spec.1
     [Action.mk 1 "bash" "echo a\n  b", Action.mk 1 "wait" "done"]
     (State.mk true false true 0) "" noFindall "echo a\n  b"
     (Action.mk 1 "wait" "done") (by decide) rfl,
   bash_dispatch_spec.2.1
     [Action.mk 1 "bash" "sleep 90", Action.mk 1 "longwait" "done"]
     (State.mk true false true 0) "" noFindall "sleep 90"
     (Action.mk 1 "longwait" "done") (by decide) rfl,
   bash_dispatch_spec.2.2.1
     [Action.mk 1 "bash" "ls", Action.mk 1 "bash" "pwd"]
     (State.mk true false true 0) "" noFindall "ls"
     (Action.mk 1 "bash" "pwd") (by decide) (by decide) (by decide),
   bash_dispatch_spec.2.2.2.1
     [Action.mk 1 "bash" "ls"]
     (State.mk true false true 0) "" noFindall "ls" (by decide)⟩

/-- C3: for a `copypaste` action, dispatch captures the screen and runs
the payload regex over it: zero matches raise a hard failure; otherwise
the last (most recent) match is selected — on a two-match screen for
`id: (\w+)` the second match, never the first — its embedded line breaks
are stripped, the result is sent with a newline, a prompt is awaited and
exit status verified. -/
theorem copypaste_dispatch_spec :
    (∀ (actions : List Action) (st : State) (screen : String)
        (fa : String → String → List String) (data : String),
      fa data screen = [] →
      dispatch actions st screen fa "copypaste" data =
        ([Event.capture], some (PyError.regexNotFound data))) ∧
    (∀ (actions : List Action) (st : State) (screen : String)
        (fa : String → String → List String) (data : String) (m : String),
      (fa data screen).getLast? = some m →
      dispatch actions st screen fa "copypaste" data =
        ([Event.capture, Event.send (removeNewlines m ++ "\n"),
          Event.waitPrompt, Event.checkExit], none)) ∧
    (reFindallId "id: (\\w+)" "container id: abc\nother id: def\n$" =
        ["abc", "def"] ∧
      dispatch [] (State.mk true false true 0)
          "container id: abc\nother id: def\n$" reFindallId "copypaste"
          "id: (\\w+)" =
        ([Event.capture, Event.send "def\n", Event.waitPrompt,
          Event.checkExit], none)) := by
  refine ⟨?_, ?_, by decide⟩
  · intro actions st screen fa data h
    simp [dispatch, h]
  · intro actions st screen fa data m h
    simp [dispatch, h]

/-- Witness: a two-match screen where the second capture is pasted. -/
theorem copypaste_dispatch_spec_witness :
    (reFindallId "id: (\\w+)" "x id: one\ny id: two\n$").getLast? =
      some "two" ∧
    dispatch [] (State.mk true false true 0) "x id: one\ny id: two\n$"
        reFindallId "copypaste" "id: (\\w+)" =
      ([Event.capture, Event.send (removeNewlines "two" ++ "\n"),
        Event.waitPrompt, Event.checkExit], none) :=
  ⟨by decide,
   copypaste_dispatch_spec.2.1 [] (State.mk true false true 0)
     "x id: one\ny id: two\n$" reFindallId "id: (\\w+)" "two" (by decide)⟩

/-- C5 is false as stated: the `copypaste` branch sends its pasted text
to the terminal without any prior `waitForPrompt` in its dispatch — this
concrete copypaste dispatch succeeds yet its trace has a send before any
prompt wait. -/
theorem prompt_before_send_cex :
    (dispatch [] (State.mk true false true 0) "x id: one\n$" reFindallId
        "copypaste" "id: (\\w+)").2 = none ∧
    noSendBeforePrompt
      (dispatch [] (State.mk true false true 0) "x id: one\n$" reFindallId
        "copypaste" "id: (\\w+)").1 = false := by decide

/-- C5 amended: only the `bash` branch confirms an idle shell before
sending — every send in a bash dispatch trace is preceded by a prompt
wait; the `open` branch sends nothing to the terminal session at all;
and the `copypaste` branch sends its paste first and only then
re-synchronizes on a prompt. -/
theorem prompt_before_send_amended :
    (∀ (actions : List Action) (st : State) (screen : String)
        (fa : String → String → List String) (data : String),
      noSendBeforePrompt (dispatch actions st screen fa "bash" data).1 = true) ∧
    (∀ (actions : List Action) (st : State) (screen : String)
        (fa : String → String → List String) (data : String),
      hasNoSend (dispatch actions st screen fa "open" data).1 = true) ∧
    (∀ (actions : List Action) (st : State) (screen : String)
        (fa : String → String → List String) (data : String) (m : String),
      (fa data screen).getLast? = some m →
      (dispatch actions st screen fa "copypaste" data).1 =
        [Event.capture, Event.send (removeNewlines m ++ "\n"),
         Event.waitPrompt, Event.checkExit]) := by
  refine ⟨?_, ?_, ?_⟩
  · intro actions st screen fa data
    cases hA : pyGet actions (st.next_step + 1) with
    | none =>
      simp [dispatch, hA, noSendBeforePrompt, noSendBeforePromptAux]
    | some nxt =>
      by_cases h1 : nxt.method == "wait" <;> by_cases h2 : nxt.method == "longwait" <;>
        simp [dispatch, hA, h1, h2, noSendBeforePrompt, noSendBeforePromptAux]
  · intro actions st screen fa data
    cases hB : (findallBracket screen).getLast? with
    | none => simp [dispatch, hB, hasNoSend]
    | some ip => simp [dispatch, hB, hasNoSend]
  · intro actions st screen fa data m h
    simp [dispatch, h]

/-- Witness: the three amended conjuncts at concrete dispatches. -/
theorem prompt_before_send_amended_witness :
    noSendBeforePrompt
      (dispatch [] (State.mk true false true 0) "" noFindall "bash"
        "echo hi").1 = true ∧
    hasNoSend
      (dispatch [] (State.mk true false true 0) "[1.2.3.4]\n$" noFindall
        "open" "http://node1/").1 = true ∧
    (dispatch [] (State.mk true false true 0) "x id: one\ny id: two\n$"
        reFindallId "copypaste" "id: (\\w+)").1 =
      [Event.capture, Event.send (removeNewlines "two" ++ "\n"),
       Event.waitPrompt, Event.checkExit] :=
  ⟨prompt_before_send_amended.1 [] (State.mk true false true 0) "" noFindall
     "echo hi",
   prompt_before_send_amended.2.1 [] (State.mk true false true 0)
     "[1.2.3.4]\n$" noFindall "http://node1/",
   prompt_before_send_amended.2.2 [] (State.mk true false true 0)
     "x id: one\ny id: two\n$" reFindallId "id: (\\w+)" "two" (by decide)⟩

/-- C6 and the code: the `open` branch extracts the most recent bracketed
address at a line start, substitutes it into the URL template's
placeholder host segment, opens the browser and switches focus — but it
then evaluates `status.interactive`, a name that is not defined at
module level (the intended name is `state`), so it raises NameError
before the interactive keypress or the advance, whether interactive mode
is on or off. -/
theorem open_dispatch_nameerror :
    dispatch [] (State.mk true false true 0) "[10.0.0.1]\n$ " noFindall
        "open" "http://node1:8080" =
      ([Event.capture, Event.openURL "http://10.0.0.1:8080",
        Event.focusBrowser], some PyError.nameError) ∧
    dispatch [] (State.mk false false true 0) "[10.0.0.1]\n$ " noFindall
        "open" "http://node1:8080" =
      ([Event.capture, Event.openURL "http://10.0.0.1:8080",
        Event.focusBrowser], some PyError.nameError) := by decide

/-- C4 is false as stated: from the valid initial state with cursor 0,
one retreat command reaches a state whose cursor is -1, outside
`[0, len(actions)]`. -/
theorem cursor_invariant_cex :
    ReachableVia [Action.mk 1 "keys" "x"] (fun _ => True)
      defaultState (State.mk true false true (-1)) ∧
    (State.mk true false true (-1)).next_step < 0 := by
  constructor
  · exact ReachableVia.step defaultState defaultState _ "" noFindall
      Command.prev (ReachableVia.refl _) trivial (by decide) (by decide)
      (by decide)
  · decide

/-- Commands that neither retreat nor jump. -/
def safeCmd (c : Command) : Prop :=
  c ≠ Command.prev ∧ ∀ n, c ≠ Command.goto n

/-- C4 amended: the bound `0 ≤ cursor ≤ len(actions)` is preserved by
advance, execute, the toggles, run-to-failure, quit and unknown
commands, i.e. by every reachable state whose operator commands avoid
retreat and jump; retreat applied at cursor 0 yields -1 and jump writes
any operator integer unchecked, so the claimed invariant fails for
those. -/
theorem cursor_invariant_safe (actions : List Action) (s₀ st : State)
    (h : ReachableVia actions safeCmd s₀ st)
    (h0 : 0 ≤ s₀.next_step) (h1 : s₀.next_step ≤ (actions.length : Int)) :
    0 ≤ st.next_step ∧ st.next_step ≤ (actions.length : Int) ∧
      ((actions.length : Int) ≤ st.next_step →
        st.next_step = (actions.length : Int)) := by
  have main : 0 ≤ st.next_step ∧ st.next_step ≤ (actions.length : Int) := by
    induction h with
    | refl => exact ⟨h0, h1⟩
    | step st₂ st₃ screen fa cmd hr hP hg he hn ih =>
      subst hn
      rcases ih with ⟨ih0, ih1⟩
      rcases hP with ⟨hp, hgo⟩
      cases hA : pyGet actions st₂.next_step with
      | none => simp [iteration, hA] at he
      | some a =>
        cases hI : st₂.interactive <;> cases cmd <;>
          simp only [iteration, hA, hI, Bool.false_eq_true, if_false,
            if_true] <;>
          (try (cases hD :
              (dispatch actions st₂ screen fa a.method
                (removeBackticks (pyStrip a.payload))).2)) <;>
          simp_all <;>
          omega
  exact ⟨main.1, main.2, fun hge => le_antisymm main.2 hge⟩

/-- Witness: one advance command from the initial state stays in
bounds. -/
theorem cursor_invariant_safe_witness :
    0 ≤ (State.mk true false true 1).next_step ∧
    (State.mk true false true 1).next_step ≤
      (([Action.mk 1 "keys" "x"] : List Action).length : Int) ∧
    ((([Action.mk 1 "keys" "x"] : List Action).length : Int) ≤
        (State.mk true false true 1).next_step →
      (State.mk true false true 1).next_step =
        (([Action.mk 1 "keys" "x"] : List Action).length : Int)) :=
  cursor_invariant_safe [Action.mk 1 "keys" "x"] defaultState
    (State.mk true false true 1)
    (ReachableVia.step defaultState defaultState _ "" noFindall Command.next
      (ReachableVia.refl _)
      ⟨by decide, by intro n h; simp at h⟩ (by decide) (by decide) (by decide))
    (by decide) (by decide)

/-- C7 is false as stated: a capture whose last line is `user$` ends in a
line ending in `$` — the spec's sentinel — yet `wait_for_prompt` never
returns on it and times out, because the code demands the last line be
exactly `$` (the literal suffix `"\n$"`). -/
theorem wait_for_prompt_cex :
    wait_for_prompt (List.replicate 60 "foo\nuser$") = false ∧
    specSentinel "foo\nuser$" = true ∧
    promptSentinel "foo\nuser$" = false := by decide

/-- Helper: the polling loop returns exactly when some poll passes the
sentinel test. -/
theorem wait_for_prompt_any (polls : List String) :
    wait_for_prompt polls = polls.any promptSentinel := by
  induction polls with
  | nil => rfl
  | cons s rest ih =>
    simp only [wait_for_prompt, List.any_cons]
    cases hb : promptSentinel s <;> simp [hb, ih]

/-- C7 amended: `waitForPrompt` returns exactly when some polled capture,
after trimming trailing newlines, ends with the literal `"\n$"` or the
literal `"\n/ #"` (the last line must be exactly `$` or exactly `/ #`,
not merely end in `$` or in `#` after whitespace), and raises Timeout
once the deadline passes otherwise. -/
theorem wait_for_prompt_exact (polls : List String) :
    wait_for_prompt polls = true ↔
      ∃ s ∈ polls, endsWithStr (rstripNl s) "\n$" = true ∨
        endsWithStr (rstripNl s) "\n/ #" = true := by
  rw [wait_for_prompt_any, List.any_eq_true]
  constructor
  · rintro ⟨x, hx, hP⟩
    exact ⟨x, hx, by simpa [promptSentinel, Bool.or_eq_true] using hP⟩
  · rintro ⟨x, hx, hP⟩
    exact ⟨x, hx, by simpa [promptSentinel, Bool.or_eq_true] using hP⟩

/-- Witness: a poll list that first misses and then shows a `$` prompt
line makes the loop return. -/
theorem wait_for_prompt_exact_witness :
    wait_for_prompt ["working...", "output\n$\n"] = true :=
  (wait_for_prompt_exact ["working...", "output\n$\n"]).2
    ⟨"output\n$\n", by decide, Or.inl (by decide)⟩

/-- C9 is false as stated: a durable record carrying
`interactive: false` whose later keys are missing fails to load, yet the
run proceeds with `interactive = false` taken from the partially-read
record, not with the defaults. -/
theorem state_load_defaults_cex :
    (State.load defaultState
        (some (LoadRec.mk (some false) none none none))).2 = false ∧
    (startup (some (LoadRec.mk (some false) none none none))).interactive =
      false ∧
    defaultState.interactive = true := by decide

/-- C9 amended: a load failure is recovered locally and the run proceeds,
but only the fields not yet assigned when the failure occurs keep their
defaults: an unreadable record or one missing its first field leaves
exactly the default state, while a record failing at a later field
retains the values read before the failure. -/
theorem state_load_failure_prefixes :
    (startup none = defaultState) ∧
    (∀ r : LoadRec, r.interactive = none → startup (some r) = defaultState) ∧
    (∀ (r : LoadRec) (i : Bool), r.interactive = some i →
      r.verify_status = none →
      startup (some r) = { defaultState with interactive := i }) ∧
    (∀ (r : LoadRec) (i v : Bool), r.interactive = some i →
      r.verify_status = some v → r.simulate_type = none →
      startup (some r) =
        { defaultState with interactive := i, verify_status := v }) ∧
    (∀ (r : LoadRec) (i v s : Bool), r.interactive = some i →
      r.verify_status = some v → r.simulate_type = some s →
      r.next_step = none →
      startup (some r) =
        { defaultState with interactive := i, verify_status := v,
                            simulate_type := s }) := by
  refine ⟨rfl, ?_, ?_, ?_, ?_⟩
  · rintro ⟨f1, f2, f3, f4⟩ h
    simp only at h
    subst h
    rfl
  · rintro ⟨f1, f2, f3, f4⟩ i h1 h2
    simp only at h1 h2
    subst h1; subst h2
    rfl
  · rintro ⟨f1, f2, f3, f4⟩ i v h1 h2 h3
    simp only at h1 h2 h3
    subst h1; subst h2; subst h3
    rfl
  · rintro ⟨f1, f2, f3, f4⟩ i v s h1 h2 h3 h4
    simp only at h1 h2 h3 h4
    subst h1; subst h2; subst h3; subst h4
    rfl

/-- Witness: a record failing at `simulate_type` keeps the two fields
read before the failure. -/
theorem state_load_failure_prefixes_witness :
    startup (some (LoadRec.mk (some false) (some true) none none)) =
      { defaultState with interactive := false, verify_status := true } :=
  state_load_failure_prefixes.2.2.2.1
    (LoadRec.mk (some false) (some true) none none) false true rfl rfl rfl

end Autotest
